import Mathlib

/-!
Verification development for the Snowflake queries extractor
(`metadata-ingestion/src/datahub/ingestion/source/snowflake/snowflake_queries.py`).

The development shallowly embeds the two core components of the file:

* the enriched audit-log SQL built by `_build_enriched_audit_log_query`
  (its CTEs `fingerprinted_queries`, `deduplicated_queries`,
  `raw_access_history`, `filtered_access_history` are modelled as executable
  list transformations giving the standard SQL semantics of the generated
  text), and
* the row parser `SnowflakeQueriesExtractor._parse_audit_log_row` together
  with the driving loop `fetch_audit_log`.

External collaborators (the identifier resolver
`gen_dataset_urn ∘ get_dataset_identifier_from_qualified_name` and the
column normalizer `snowflake_identifier`, both provided by mixins outside
this file) are passed as function parameters `g` and `c`.
Timestamps are modelled as integer epoch milliseconds, matching
`int(ts.timestamp() * 1000)` in the builder; the warehouse-native
`DATE_TRUNC(bucket, CONVERT_TIMEZONE('UTC', t))` is passed as a function
parameter `trunc`.
-/

set_option maxHeartbeats 1000000

namespace SnowflakeQueries

/-- Modelled from the spec: `SnowflakeQuery.ACCESS_HISTORY_TABLE_VIEW_DOMAINS`,
imported by the source file from an external module that is not part of the
repository slice under verification.  Per the spec, it is the set of warehouse
object domains eligible as lineage endpoints ("only table/view domains are
eligible lineage endpoints here"; other domains such as stages are excluded). -/
def ACCESS_HISTORY_TABLE_VIEW_DOMAINS : List String :=
  ["Table", "External table", "View", "Materialized view"]

/-- Whether an `objectDomain` string is in the table/view domain set; this is
the predicate of both the SQL `FILTER(... o -> o:objectDomain IN ...)` clauses
and the parser's `if upstream["objectDomain"] in ...` comprehension guard. -/
def isTableViewDomain (d : String) : Bool :=
  ACCESS_HISTORY_TABLE_VIEW_DOMAINS.contains d

/-- The constant `_MAX_TABLES_PER_QUERY = 20` from the source. -/
def _MAX_TABLES_PER_QUERY : Nat := 20

/-- An element of a `directSources` array inside a modified column of an
`objects_modified` entry. -/
structure DirectSource where
  objectName : String
  objectDomain : String
  columnName : String
  deriving Repr, DecidableEq

/-- An element of the `columns` array of an `objects_modified` entry. -/
structure ModifiedColumn where
  columnName : String
  directSources : List DirectSource
  deriving Repr, DecidableEq

/-- An element of the `columns` array of a `direct_objects_accessed` entry. -/
structure AccessedColumn where
  columnName : String
  deriving Repr, DecidableEq

/-- An element of the JSON array `direct_objects_accessed`. -/
structure AccessedObject where
  objectName : String
  objectDomain : String
  columns : List AccessedColumn
  deriving Repr, DecidableEq

/-- An element of the JSON array `objects_modified`. -/
structure ModifiedObject where
  objectName : String
  objectDomain : String
  columns : List ModifiedColumn
  deriving Repr, DecidableEq

/-- The enum `QueryType` from `datahub.sql_parsing.sql_parsing_common`, restricted to
the constructors used by `SNOWFLAKE_QUERY_TYPE_MAPPING`. -/
inductive QueryType where
  | INSERT
  | UPDATE
  | DELETE
  | CREATE_OTHER
  | CREATE_DDL
  | CREATE_VIEW
  | CREATE_TABLE_AS_SELECT
  | MERGE
  | UNKNOWN
  deriving Repr, DecidableEq

/-- The dict `SNOWFLAKE_QUERY_TYPE_MAPPING`, as a lookup returning `none` for
labels absent from the dict (the parser then defaults to `UNKNOWN` via
`.get(..., QueryType.UNKNOWN)`). -/
def SNOWFLAKE_QUERY_TYPE_MAPPING (label : String) : Option QueryType :=
  if label = "INSERT" then some .INSERT
  else if label = "UPDATE" then some .UPDATE
  else if label = "DELETE" then some .DELETE
  else if label = "CREATE" then some .CREATE_OTHER
  else if label = "CREATE_TABLE" then some .CREATE_DDL
  else if label = "CREATE_VIEW" then some .CREATE_VIEW
  else if label = "CREATE_TABLE_AS_SELECT" then some .CREATE_TABLE_AS_SELECT
  else if label = "MERGE" then some .MERGE
  else if label = "COPY" then some .UNKNOWN
  else if label = "TRUNCATE_TABLE" then some .UNKNOWN
  else none

/-- One flattened audit-log row as handed to `_parse_audit_log_row` (keys
already lower-cased, as the parser's first loop does).  The two JSON columns
are `Option`-valued: `none` models a SQL `NULL` (Python `None`), for which the
parser's `if key in json_fields and value` guard skips `json.loads`;
`some objs` models a JSON text that decodes to the array `objs`. -/
structure AuditLogRow where
  query_fingerprint : String
  query_text : String
  direct_objects_accessed : Option (List AccessedObject)
  objects_modified : Option (List ModifiedObject)
  user_name : String
  query_start_time : Int
  query_type : String
  query_count : Nat
  session_id : String
  deriving Repr, DecidableEq

/-- The class `ColumnRef` from `datahub.sql_parsing.sqlglot_lineage`. -/
structure ColumnRef where
  table : String
  column : String
  deriving Repr, DecidableEq

/-- The class `DownstreamColumnRef` from `datahub.sql_parsing.sqlglot_lineage`. -/
structure DownstreamColumnRef where
  dataset : String
  column : String
  deriving Repr, DecidableEq

/-- The class `ColumnLineageInfo` from `datahub.sql_parsing.sqlglot_lineage`. -/
structure ColumnLineageInfo where
  downstream : DownstreamColumnRef
  upstreams : List ColumnRef
  deriving Repr, DecidableEq

/-- The class `PreparsedQuery` (the normalized lineage record).  `column_usage` is a
Python dict mapping dataset urn to a set of column identifiers; it is modelled
as an insertion-ordered association list, with each set modelled as a
duplicate-free list (Python set membership semantics; set iteration order is
never observed by the claims). -/
structure PreparsedQuery where
  query_id : String
  query_text : String
  upstreams : List String
  downstream : Option String
  column_lineage : Option (List ColumnLineageInfo)
  column_usage : List (String × List String)
  confidence_score : Nat
  query_count : Nat
  user : String
  timestamp : Int
  session_id : String
  query_type : QueryType
  deriving Repr, DecidableEq

/-- The exceptions `_parse_audit_log_row` can raise in the embedded fragment:
iterating a Python `None` (`for obj in None:`) raises a `TypeError`. -/
inductive ParseErr where
  | noneNotIterable (field : String)
  deriving Repr, DecidableEq

/-- Python `set.add` on a set modelled as a duplicate-free list. -/
def setAdd (s : List String) (x : String) : List String :=
  if s.contains x then s else s ++ [x]

/-- Python dict assignment `m[k] = v`: update in place if the key exists,
otherwise append (insertion order preserved). -/
def dictInsert (m : List (String × List String)) (k : String) (v : List String) :
    List (String × List String) :=
  if m.any (fun p => p.1 == k) then m.map (fun p => if p.1 == k then (k, v) else p)
  else m ++ [(k, v)]

/-- The loop `for obj in direct_objects_accessed:` of `_parse_audit_log_row`:
accumulates `upstreams` (by append) and `column_usage` (by dict assignment);
`g` is `gen_dataset_urn ∘ get_dataset_identifier_from_qualified_name` and `c`
is `snowflake_identifier`. -/
def accessedFold (g c : String → String) :
    List String × List (String × List String) → List AccessedObject →
    List String × List (String × List String)
  | acc, [] => acc
  | (ups, cu), obj :: rest =>
      let dataset := g obj.objectName
      let columns := obj.columns.foldl (fun s mc => setAdd s (c mc.columnName)) []
      accessedFold g c (ups ++ [dataset], dictInsert cu dataset columns) rest

/-- Python truthiness of the `downstream` variable (`None` or a `str`):
`if downstream:` is true iff it is a non-empty string. -/
def strTruthy : Option String → Bool
  | none => false
  | some s => s != ""

/-- The parser's filter of a modified column's `directSources` to table/view
domains (`if upstream["objectDomain"] in ACCESS_HISTORY_TABLE_VIEW_DOMAINS`). -/
def filterDirectSources (ds : List DirectSource) : List DirectSource :=
  ds.filter (fun u => isTableViewDomain u.objectDomain)

/-- The `ColumnLineageInfo` list built for one `objects_modified` entry `obj`
whose resolved downstream urn is `g obj.objectName`. -/
def mkColumnLineage (g c : String → String) (obj : ModifiedObject) :
    List ColumnLineageInfo :=
  obj.columns.map fun mc =>
    { downstream := { dataset := g obj.objectName, column := c mc.columnName }
      upstreams := (filterDirectSources mc.directSources).map fun u =>
        { table := g u.objectName, column := c u.columnName } }

/-- The loop `for obj in objects_modified:` of `_parse_audit_log_row`.  State:
`(downstream, column_lineage, warning count)`, started at `(None, None, 0)`.
Each iteration first reports a warning when `downstream` is already truthy,
then overwrites `downstream` and rebuilds `column_lineage` from the current
entry. -/
def modifiedFold (g c : String → String) :
    Option String × Option (List ColumnLineageInfo) × Nat → List ModifiedObject →
    Option String × Option (List ColumnLineageInfo) × Nat
  | acc, [] => acc
  | (d, _cl, w), obj :: rest =>
      modifiedFold g c
        (some (g obj.objectName), some (mkColumnLineage g c obj),
          if strTruthy d then w + 1 else w) rest

/-- The method `SnowflakeQueriesExtractor._parse_audit_log_row`.  Returns the
produced `PreparsedQuery` together with the number of
"Unexpectedly got multiple downstream entities" warnings reported on the way,
or the raised exception.  A `none` JSON column is left undecoded by the
`if key in json_fields and value` guard, so the subsequent `for` loop raises. -/
def parse_audit_log_row (g c : String → String) (row : AuditLogRow) :
    Except ParseErr (PreparsedQuery × Nat) :=
  match row.direct_objects_accessed with
  | none => .error (.noneNotIterable "direct_objects_accessed")
  | some direct_objects_accessed =>
    match row.objects_modified with
    | none => .error (.noneNotIterable "objects_modified")
    | some objects_modified =>
      let au := accessedFold g c ([], []) direct_objects_accessed
      let mo := modifiedFold g c (none, none, 0) objects_modified
      .ok
        ({ query_id := row.query_fingerprint
           query_text := row.query_text
           upstreams := au.1
           downstream := mo.1
           column_lineage := mo.2.1
           column_usage := au.2
           confidence_score := 1
           query_count := row.query_count
           user := row.user_name
           timestamp := row.query_start_time
           session_id := row.session_id
           query_type := (SNOWFLAKE_QUERY_TYPE_MAPPING row.query_type).getD .UNKNOWN },
          mo.2.2)

/-- A row-level parse warning reported by `fetch_audit_log`'s
`except Exception` handler: carries the offending row (`context=f"{row}"`) and
the exception. -/
structure RowWarning where
  context : AuditLogRow
  exc : ParseErr
  deriving Repr, DecidableEq

/-- The per-row loop of `SnowflakeQueriesExtractor.fetch_audit_log`: each row
is parsed inside `try`; on an exception a warning with the row and the error
is reported and nothing is yielded, otherwise the entry is yielded.  The
result is the yielded record stream (first) and the reported warning stream
(second), both in row order. -/
def fetch_audit_log (g c : String → String) (rows : List AuditLogRow) :
    List PreparsedQuery × List RowWarning :=
  (rows.filterMap fun row => (parse_audit_log_row g c row).toOption.map Prod.fst,
   rows.filterMap fun row =>
     match parse_audit_log_row g c row with
     | .error e => some ⟨row, e⟩
     | .ok _ => none)

/-! ### The enriched audit-log query

`_build_enriched_audit_log_query` produces SQL text; the definitions below
give the standard SQL semantics of its CTEs over explicit row lists.
`start`/`stop` are the builder's `start_time_millis`/`end_time_millis`
(`int(ts.timestamp() * 1000)`), `deny` is `deny_usernames`, and
`trunc : Int → Int` is the warehouse-native
`DATE_TRUNC(bucket, CONVERT_TIMEZONE('UTC', ·))` for the configured
`bucket_duration`. -/

/-- One row of `snowflake.account_usage.query_history`, restricted to the
columns the generated SQL reads. -/
structure QueryHistoryRow where
  query_id : String
  query_parameterized_hash : String
  start_time : Int
  execution_status : String
  user_name : String
  session_id : String
  query_text : String
  query_type : String
  deriving Repr, DecidableEq

/-- One row of `snowflake.account_usage.access_history`, restricted to the
columns the generated SQL reads. -/
structure AccessHistoryRow where
  query_id : String
  query_start_time : Int
  user_name : String
  direct_objects_accessed : List AccessedObject
  objects_modified : List ModifiedObject
  deriving Repr, DecidableEq

/-- Python `str.upper()` as applied to the denylist entries: upper-cases each
character (executably, character by character; agrees with `String.toUpper`). -/
def pyUpper (s : String) : String :=
  String.mk (s.data.map Char.toUpper)

/-- The `users_filter` predicate.  The builder emits
`user_name NOT IN ('U1',...)` with each denylist entry upper-cased
(`user.upper()`), or the always-true predicate when `deny_usernames` is falsy
(`users_filter or 'TRUE'`).  Snowflake's `NOT IN` compares strings with the
default case-sensitive collation, i.e. exact equality against the upper-cased
entries. -/
def usersPass (deny : List String) (user_name : String) : Bool :=
  if deny.isEmpty then true
  else !((deny.map pyUpper).contains user_name)

/-- The `users_filter` SQL fragment itself, as built by the `if deny_usernames:`
branch (empty string when the denylist is falsy). -/
def usersFilterClause (deny : List String) : String :=
  if deny.isEmpty then ""
  else "user_name NOT IN (" ++
    String.intercalate "," (deny.map (fun u => "'" ++ pyUpper u ++ "'")) ++ ")"

/-- The `WHERE` predicate of the `fingerprinted_queries` CTE: time window,
`execution_status = 'SUCCESS'`, and the user filter. -/
def passesQueryFilter (start stop : Int) (deny : List String) (r : QueryHistoryRow) : Bool :=
  decide (start ≤ r.start_time) && decide (r.start_time < stop) &&
    (r.execution_status == "SUCCESS") && usersPass deny r.user_name

/-- The `fingerprinted_queries` CTE (the added `query_fingerprint` column is
`query_parameterized_hash`, kept as that field). -/
def fingerprinted_queries (start stop : Int) (deny : List String)
    (qs : List QueryHistoryRow) : List QueryHistoryRow :=
  qs.filter (passesQueryFilter start stop deny)

/-- Whether two query rows fall in the same dedup partition
`(bucket_start_time, query_fingerprint)`. -/
def samePartition (trunc : Int → Int) (a b : QueryHistoryRow) : Bool :=
  decide (trunc a.start_time = trunc b.start_time) &&
    (a.query_parameterized_hash == b.query_parameterized_hash)

/-- The `QUALIFY ROW_NUMBER() OVER (PARTITION BY bucket_start_time,
query_fingerprint ORDER BY start_time DESC) = 1` clause: the row at position
`i` is kept iff every
other row of its partition either has a strictly smaller `start_time` or ties
and sits at a larger position (a deterministic refinement of the
implementation-defined tie order). -/
def keepInDedup (trunc : Int → Int) (qs : List QueryHistoryRow)
    (i : Nat) (r : QueryHistoryRow) : Bool :=
  qs.enum.all fun p =>
    !(samePartition trunc r p.2) || (p.1 == i) ||
      decide (p.2.start_time < r.start_time) ||
      (decide (p.2.start_time = r.start_time) && decide (i < p.1))

/-- One row of the `deduplicated_queries` CTE. -/
structure DedupRow where
  row : QueryHistoryRow
  bucket_start_time : Int
  query_fingerprint : String
  query_count : Nat
  deriving Repr, DecidableEq

/-- The `deduplicated_queries` CTE: each surviving row carries
`bucket_start_time`, `query_fingerprint`, and
`COUNT(*) OVER (PARTITION BY bucket_start_time, query_fingerprint)`. -/
def deduplicated_queries (trunc : Int → Int) (qs : List QueryHistoryRow) :
    List DedupRow :=
  (qs.enum.filter fun p => keepInDedup trunc qs p.1 p.2).map fun p =>
    { row := p.2
      bucket_start_time := trunc p.2.start_time
      query_fingerprint := p.2.query_parameterized_hash
      query_count := (qs.filter (fun r => samePartition trunc p.2 r)).length }

/-- The `WHERE` predicate of the `raw_access_history` CTE: time window, the
same user filter, and `query_id IN (SELECT query_id FROM
deduplicated_queries)` (given as the id list `dedupIds`). -/
def passesAccessFilter (start stop : Int) (deny : List String)
    (dedupIds : List String) (r : AccessHistoryRow) : Bool :=
  decide (start ≤ r.query_start_time) && decide (r.query_start_time < stop) &&
    usersPass deny r.user_name && dedupIds.contains r.query_id

/-- The `raw_access_history` CTE. -/
def raw_access_history (start stop : Int) (deny : List String)
    (dedupIds : List String) (rows : List AccessHistoryRow) : List AccessHistoryRow :=
  rows.filter (passesAccessFilter start stop deny dedupIds)

/-- Snowflake `ARRAY_SLICE(arr, from, to)`: the elements at indices `[from, to)`. -/
def arraySlice (l : List α) (start stop : Nat) : List α :=
  (l.drop start).take (stop - start)

/-- The `filtered_access_history` CTE.  Its `WHERE
( array_size(direct_objects_accessed) > 0 or array_size(objects_modified) > 0 )`
references the columns of the `FROM` source `raw_access_history`, not the
SELECT-list aliases of the same names, so the emptiness test is on the arrays
BEFORE domain filtering.  The SELECT list domain-filters both arrays and
applies `ARRAY_SLICE(..., 0, _MAX_TABLES_PER_QUERY)` to
`direct_objects_accessed` only. -/
def filtered_access_history (rows : List AccessHistoryRow) : List AccessHistoryRow :=
  (rows.filter fun r =>
      decide (0 < r.direct_objects_accessed.length) ||
        decide (0 < r.objects_modified.length)).map fun r =>
    { r with
      direct_objects_accessed :=
        arraySlice (r.direct_objects_accessed.filter fun o => isTableViewDomain o.objectDomain)
          0 _MAX_TABLES_PER_QUERY
      objects_modified :=
        r.objects_modified.filter fun o => isTableViewDomain o.objectDomain }

/-! ### Helper lemmas -/

/-- Unfolding of the parser when both JSON columns are present. -/
lemma parse_ok (g c : String → String) (row : AuditLogRow)
    (doa : List AccessedObject) (om : List ModifiedObject)
    (hdoa : row.direct_objects_accessed = some doa)
    (hom : row.objects_modified = some om) :
    parse_audit_log_row g c row = .ok
      ({ query_id := row.query_fingerprint
         query_text := row.query_text
         upstreams := (accessedFold g c ([], []) doa).1
         downstream := (modifiedFold g c (none, none, 0) om).1
         column_lineage := (modifiedFold g c (none, none, 0) om).2.1
         column_usage := (accessedFold g c ([], []) doa).2
         confidence_score := 1
         query_count := row.query_count
         user := row.user_name
         timestamp := row.query_start_time
         session_id := row.session_id
         query_type := (SNOWFLAKE_QUERY_TYPE_MAPPING row.query_type).getD .UNKNOWN },
        (modifiedFold g c (none, none, 0) om).2.2) := by
  simp only [parse_audit_log_row, hdoa, hom]

/-- The first component accumulated by `accessedFold` is the accumulator
extended by one resolved urn per accessed object, in order. -/
lemma accessedFold_fst (g c : String → String) :
    ∀ (objs : List AccessedObject) (ups : List String)
      (cu : List (String × List String)),
      (accessedFold g c (ups, cu) objs).1
        = ups ++ objs.map (fun o => g o.objectName) := by
  intro objs
  induction objs with
  | nil => intro ups cu; simp [accessedFold]
  | cons o rest ih =>
      intro ups cu
      rw [accessedFold, ih]
      simp

/-- Running `modifiedFold` from a state whose downstream is already a
resolved (hence non-empty) urn: every further entry adds one warning, and the
last entry determines the final downstream and column lineage. -/
lemma modifiedFold_go (g c : String → String) (hg : ∀ s, g s ≠ "") :
    ∀ (rest : List ModifiedObject) (obj : ModifiedObject) (w : Nat),
      modifiedFold g c (some (g obj.objectName), some (mkColumnLineage g c obj), w) rest
        = (some (g (rest.getLastD obj).objectName),
           some (mkColumnLineage g c (rest.getLastD obj)), w + rest.length) := by
  intro rest
  induction rest with
  | nil => intro obj w; simp [modifiedFold]
  | cons o rest ih =>
      intro obj w
      have ht : strTruthy (some (g obj.objectName)) = true := by
        simp [strTruthy, bne_iff_ne, hg obj.objectName]
      rw [modifiedFold, ht, if_pos rfl, ih o (w + 1), List.getLastD_cons]
      simp only [List.length_cons, Prod.mk.injEq, true_and]
      omega

/-- Full characterization of the `objects_modified` loop on a non-empty array
(for resolvers producing non-empty urns): the downstream and column lineage
come from the last entry, and one warning is reported per entry after the
first. -/
lemma modifiedFold_spec (g c : String → String) (hg : ∀ s, g s ≠ "")
    (obj : ModifiedObject) (rest : List ModifiedObject) :
    modifiedFold g c (none, none, 0) (obj :: rest)
      = (some (g (rest.getLastD obj).objectName),
         some (mkColumnLineage g c (rest.getLastD obj)), rest.length) := by
  rw [modifiedFold]
  simp only [strTruthy, Bool.false_eq_true, if_false]
  rw [modifiedFold_go g c hg rest obj 0]
  simp

/-- The column-lineage component of `modifiedFold` is `none` or the lineage
list built from some modified object. -/
lemma modifiedFold_cl (g c : String → String) :
    ∀ (om : List ModifiedObject)
      (st : Option String × Option (List ColumnLineageInfo) × Nat),
      (st.2.1 = none ∨ ∃ o, st.2.1 = some (mkColumnLineage g c o)) →
      ((modifiedFold g c st om).2.1 = none ∨
        ∃ o, (modifiedFold g c st om).2.1 = some (mkColumnLineage g c o)) := by
  intro om
  induction om with
  | nil => intro st h; exact h
  | cons o rest ih =>
      intro st _h
      obtain ⟨d, cl, w⟩ := st
      rw [modifiedFold]
      exact ih _ (Or.inr ⟨o, rfl⟩)

/-! ### Concrete inputs used by counterexamples and witnesses -/

/-- A modified object with the given name, table domain, and no columns. -/
def exMod (n : String) : ModifiedObject :=
  { objectName := n, objectDomain := "Table", columns := [] }

/-- A row whose `objects_modified` array has three entries. -/
def c1Row : AuditLogRow :=
  { query_fingerprint := "fp1", query_text := "insert into t select 1",
    direct_objects_accessed := some [],
    objects_modified := some [exMod "A", exMod "B", exMod "C"],
    user_name := "alice", query_start_time := 0, query_type := "INSERT",
    query_count := 1, session_id := "sess1" }

/-- A row whose `objects_modified` array has two entries. -/
def c1wRow : AuditLogRow :=
  { query_fingerprint := "fp1w", query_text := "insert into t select 2",
    direct_objects_accessed := some [],
    objects_modified := some [exMod "A", exMod "B"],
    user_name := "alice", query_start_time := 0, query_type := "INSERT",
    query_count := 1, session_id := "sess1w" }

/-! ### C1 -/

/-- C1 (counterexample): the claim says a row with more than one entry in
`objects_modified` yields exactly one warning and a `downstream` equal to the
FIRST object's resolved identifier.  On a concrete row with three modified
objects `A`, `B`, `C` and the identity resolver, the parser reports TWO
warnings and sets `downstream` to `"C"` (the last object), not `"A"`. -/
theorem c1_counterexample :
    ((parse_audit_log_row (fun s => s) (fun s => s) c1Row).toOption.map
        fun p => (p.1.downstream, p.2)) = some (some "C", 2)
      ∧ (some "C" : Option String) ≠ some "A" ∧ (2 : Nat) ≠ 1 := by
  exact ⟨rfl, by decide, by decide⟩

/-- C1 (amended): for every raw audit row whose `objects_modified` array has
`n > 1` entries, and resolvers producing non-empty identifiers, the row parser
reports `n - 1` multiple-downstream warnings (exactly one when `n = 2`) and
produces a record whose `downstream` equals the resolved identifier of the
LAST modified object, with `column_lineage` built from that last object; the
row is not dropped. -/
theorem c1_amended_multiple_modified (g c : String → String)
    (row : AuditLogRow) (doa : List AccessedObject) (om : List ModifiedObject)
    (hg : ∀ s, g s ≠ "")
    (hdoa : row.direct_objects_accessed = some doa)
    (hom : row.objects_modified = some om) (hlen : 1 < om.length) :
    ∃ q last, parse_audit_log_row g c row = .ok (q, om.length - 1)
      ∧ om.getLast? = some last
      ∧ q.downstream = some (g last.objectName)
      ∧ q.column_lineage = some (mkColumnLineage g c last) := by
  cases om with
  | nil => simp at hlen
  | cons obj rest =>
      have hp := parse_ok g c row doa (obj :: rest) hdoa hom
      rw [modifiedFold_spec g c hg obj rest] at hp
      refine ⟨_, rest.getLastD obj, hp, ?_, rfl, rfl⟩
      rw [List.getLast?_cons, List.getLastD_eq_getLast?]

/-- Witness for C1 (amended): instantiated at a concrete two-entry row with a
constant non-empty resolver, giving exactly one warning and the last object's
identifier. -/
theorem c1_amended_witness :
    ∃ q last,
      parse_audit_log_row (fun _ => "urn") (fun s => s) c1wRow
          = .ok (q, [exMod "A", exMod "B"].length - 1)
        ∧ [exMod "A", exMod "B"].getLast? = some last
        ∧ q.downstream = some ("urn")
        ∧ q.column_lineage
            = some (mkColumnLineage (fun _ => "urn") (fun s => s) last) :=
  c1_amended_multiple_modified (fun _ => "urn") (fun s => s) c1wRow []
    [exMod "A", exMod "B"] (fun _ => (by decide : ("urn" : String) ≠ "")) rfl rfl
    (by decide)

/-! ### C6 -/

/-- The modified object of the spec's worked scenario. -/
def c6Obj : ModifiedObject :=
  { objectName := "DB.SCH.T", objectDomain := "Table",
    columns := [{ columnName := "A",
                  directSources := [{ objectName := "DB.SCH.S",
                                      objectDomain := "Table",
                                      columnName := "X" }] }] }

/-- A row with exactly one modified object. -/
def c6Row : AuditLogRow :=
  { query_fingerprint := "fp6", query_text := "insert into t select x from s",
    direct_objects_accessed := some [],
    objects_modified := some [c6Obj],
    user_name := "carol", query_start_time := 0, query_type := "INSERT",
    query_count := 1, session_id := "sess6" }

/-- C6: for every raw audit row with exactly one modified object (and at most
20 accessed objects), the parser returns exactly one record, with no
multiple-downstream warning, whose `downstream` is that object's resolved
identifier and whose `column_lineage` length equals the number of entries in
that object's `columns` array. -/
theorem c6_single_modified (g c : String → String) (row : AuditLogRow)
    (doa : List AccessedObject) (obj : ModifiedObject)
    (hdoa : row.direct_objects_accessed = some doa)
    (_hcap : doa.length ≤ _MAX_TABLES_PER_QUERY)
    (hom : row.objects_modified = some [obj]) :
    ∃ q, parse_audit_log_row g c row = .ok (q, 0)
      ∧ q.downstream = some (g obj.objectName)
      ∧ ∃ cl, q.column_lineage = some cl ∧ cl.length = obj.columns.length := by
  have hp := parse_ok g c row doa [obj] hdoa hom
  refine ⟨_, hp, rfl, mkColumnLineage g c obj, rfl, ?_⟩
  simp [mkColumnLineage]

/-- Witness for C6 at the spec's worked scenario row with identity
resolvers. -/
theorem c6_single_modified_witness :
    ∃ q, parse_audit_log_row (fun s => s) (fun s => s) c6Row = .ok (q, 0)
      ∧ q.downstream = some ((fun s : String => s) c6Obj.objectName)
      ∧ ∃ cl, q.column_lineage = some cl ∧ cl.length = c6Obj.columns.length :=
  c6_single_modified (fun s => s) (fun s => s) c6Row [] c6Obj rfl (by decide) rfl

/-! ### C7 -/

/-- C7: every upstream entry of every `column_lineage` entry of a produced
record comes from a `directSources` entry whose `objectDomain` is in the
table/view domain set, and the parser's direct-source domain filter is
idempotent. -/
theorem c7_domain_filtering (g c : String → String) (row : AuditLogRow)
    (q : PreparsedQuery) (w : Nat) (cl : ColumnLineageInfo) (up : ColumnRef)
    (ds : List DirectSource)
    (hparse : parse_audit_log_row g c row = .ok (q, w))
    (hcl : cl ∈ q.column_lineage.getD []) (hup : up ∈ cl.upstreams) :
    (∃ u : DirectSource, isTableViewDomain u.objectDomain = true
        ∧ up = { table := g u.objectName, column := c u.columnName })
    ∧ filterDirectSources (filterDirectSources ds) = filterDirectSources ds := by
  constructor
  · cases hdoa : row.direct_objects_accessed with
    | none => rw [parse_audit_log_row, hdoa] at hparse; cases hparse
    | some doa =>
      cases hom : row.objects_modified with
      | none =>
          rw [parse_audit_log_row, hdoa] at hparse
          simp only [hom] at hparse
          cases hparse
      | some om =>
        have hp := parse_ok g c row doa om hdoa hom
        rw [hp] at hparse
        simp only [Except.ok.injEq, Prod.mk.injEq] at hparse
        obtain ⟨hq, -⟩ := hparse
        subst hq
        rcases modifiedFold_cl g c om (none, none, 0) (Or.inl rfl) with h | ⟨o, h⟩
        · rw [h] at hcl
          simp at hcl
        · rw [h] at hcl
          simp only [Option.getD_some, mkColumnLineage, List.mem_map] at hcl
          obtain ⟨mc, -, rfl⟩ := hcl
          simp only [List.mem_map] at hup
          obtain ⟨u, hu, rfl⟩ := hup
          exact ⟨u, (List.mem_filter.mp hu).2, rfl⟩
  · simp [filterDirectSources, List.filter_filter]

/-- The direct source of the C7 witness row. -/
def c7Src : DirectSource :=
  { objectName := "DB.SCH.S", objectDomain := "Table", columnName := "X" }

/-- The record parsed from `c6Row` by the identity resolvers, written out. -/
def c7Q : PreparsedQuery :=
  { query_id := "fp6", query_text := "insert into t select x from s",
    upstreams := [], downstream := some "DB.SCH.T",
    column_lineage := some
      [{ downstream := { dataset := "DB.SCH.T", column := "A" },
         upstreams := [{ table := "DB.SCH.S", column := "X" }] }],
    column_usage := [], confidence_score := 1, query_count := 1,
    user := "carol", timestamp := 0, session_id := "sess6",
    query_type := .INSERT }

/-- Witness for C7 at the record parsed from the worked scenario row. -/
theorem c7_domain_filtering_witness :
    (∃ u : DirectSource, isTableViewDomain u.objectDomain = true
        ∧ ({ table := "DB.SCH.S", column := "X" } : ColumnRef)
            = { table := u.objectName, column := u.columnName })
    ∧ filterDirectSources (filterDirectSources [c7Src])
        = filterDirectSources [c7Src] :=
  c7_domain_filtering (fun s => s) (fun s => s) c6Row c7Q 0
    { downstream := { dataset := "DB.SCH.T", column := "A" },
      upstreams := [{ table := "DB.SCH.S", column := "X" }] }
    { table := "DB.SCH.S", column := "X" } [c7Src] rfl (by decide) (by decide)

/-! ### C8 -/

/-- An accessed object, used twice in the duplicate-upstream row. -/
def c8Obj : AccessedObject :=
  { objectName := "DB.SCH.S", objectDomain := "Table",
    columns := [{ columnName := "X" }] }

/-- A row whose `direct_objects_accessed` contains the same object twice. -/
def c8Row : AuditLogRow :=
  { query_fingerprint := "fp8", query_text := "select s1.x from s s1, s s2",
    direct_objects_accessed := some [c8Obj, c8Obj],
    objects_modified := some [],
    user_name := "dave", query_start_time := 0, query_type := "SELECT",
    query_count := 1, session_id := "sess8" }

/-- C8 (counterexample): the claim says `upstreams` contains no duplicate
identifier.  On a row listing the same object twice in
`direct_objects_accessed`, the parser appends its identifier twice: the
resulting `upstreams` is `["DB.SCH.S", "DB.SCH.S"]`, which is not
duplicate-free. -/
theorem c8_counterexample :
    ((parse_audit_log_row (fun s => s) (fun s => s) c8Row).toOption.map
        fun p => p.1.upstreams) = some ["DB.SCH.S", "DB.SCH.S"]
    ∧ ¬ (["DB.SCH.S", "DB.SCH.S"] : List String).Nodup := by
  exact ⟨rfl, by decide⟩

/-- C8 (amended): in every record the parser produces, `upstreams` lists the
resolved identifiers of the accessed objects in their order of appearance in
`direct_objects_accessed`, one entry per accessed object — duplicates are
retained when the same object appears more than once. -/
theorem c8_amended_upstreams (g c : String → String) (row : AuditLogRow)
    (doa : List AccessedObject) (om : List ModifiedObject)
    (hdoa : row.direct_objects_accessed = some doa)
    (hom : row.objects_modified = some om) :
    ∃ q w, parse_audit_log_row g c row = .ok (q, w)
      ∧ q.upstreams = doa.map fun o => g o.objectName := by
  have hp := parse_ok g c row doa om hdoa hom
  exact ⟨_, _, hp, by simpa using accessedFold_fst g c doa [] []⟩

/-- Witness for C8 (amended) at the duplicate-accessed-object row. -/
theorem c8_amended_witness :
    ∃ q w, parse_audit_log_row (fun s => s) (fun s => s) c8Row = .ok (q, w)
      ∧ q.upstreams = [c8Obj, c8Obj].map fun o => (fun s : String => s) o.objectName :=
  c8_amended_upstreams (fun s => s) (fun s => s) c8Row [c8Obj, c8Obj] [] rfl rfl

/-! ### C9 -/

/-- C9: in `fetch_audit_log`, a row whose parse raises is caught by the
enclosing `try`/`except`: it contributes exactly one warning (carrying the row
and the exception) and no record, while every row before and after it is
processed exactly as it would be on its own — a single bad row never aborts
the run. -/
theorem c9_bad_row_isolation (g c : String → String)
    (pre post : List AuditLogRow) (bad : AuditLogRow) (e : ParseErr)
    (hbad : parse_audit_log_row g c bad = .error e) :
    fetch_audit_log g c (pre ++ bad :: post)
      = ((fetch_audit_log g c pre).1 ++ (fetch_audit_log g c post).1,
         (fetch_audit_log g c pre).2 ++ ⟨bad, e⟩ :: (fetch_audit_log g c post).2) := by
  simp [fetch_audit_log, List.filterMap_append, List.filterMap_cons, hbad,
    Except.toOption]

/-- A parseable row: both JSON arrays present and empty. -/
def c9Good : AuditLogRow :=
  { query_fingerprint := "fp9a", query_text := "select 1",
    direct_objects_accessed := some [], objects_modified := some [],
    user_name := "erin", query_start_time := 0, query_type := "SELECT",
    query_count := 1, session_id := "sess9a" }

/-- A malformed row: `direct_objects_accessed` is SQL `NULL`. -/
def c9Bad : AuditLogRow :=
  { query_fingerprint := "fp9b", query_text := "select 2",
    direct_objects_accessed := none, objects_modified := some [],
    user_name := "erin", query_start_time := 0, query_type := "SELECT",
    query_count := 1, session_id := "sess9b" }

/-- A second parseable row, processed after the bad one. -/
def c9Good2 : AuditLogRow :=
  { query_fingerprint := "fp9c", query_text := "select 3",
    direct_objects_accessed := some [], objects_modified := some [],
    user_name := "erin", query_start_time := 0, query_type := "SELECT",
    query_count := 1, session_id := "sess9c" }

/-- Witness for C9: a bad row between two good rows yields one warning for the
bad row and leaves the good rows' records intact. -/
theorem c9_bad_row_isolation_witness :
    fetch_audit_log (fun s => s) (fun s => s) ([c9Good] ++ c9Bad :: [c9Good2])
      = ((fetch_audit_log (fun s => s) (fun s => s) [c9Good]).1
           ++ (fetch_audit_log (fun s => s) (fun s => s) [c9Good2]).1,
         (fetch_audit_log (fun s => s) (fun s => s) [c9Good]).2
           ++ ⟨c9Bad, .noneNotIterable "direct_objects_accessed"⟩
              :: (fetch_audit_log (fun s => s) (fun s => s) [c9Good2]).2) :=
  c9_bad_row_isolation (fun s => s) (fun s => s) [c9Good] [c9Good2] c9Bad
    (.noneNotIterable "direct_objects_accessed") rfl

/-! ### C10 -/

/-- C10: when `DIRECT_OBJECTS_ACCESSED` is `NULL`, JSON decoding is skipped
(`if key in json_fields and value`) and iterating `None` raises, so the parser
fails and the driver reports a parse warning instead of yielding a record;
likewise for a `NULL` `OBJECTS_MODIFIED`; only a present `'[]'` (decoding to
an empty array) gives a record with empty `upstreams`/`column_usage`. -/
theorem c10_null_json_fields (g c : String → String)
    (rowA rowB rowC : AuditLogRow)
    (doaB : List AccessedObject) (omC : List ModifiedObject)
    (hA : rowA.direct_objects_accessed = none)
    (hB1 : rowB.direct_objects_accessed = some doaB)
    (hB2 : rowB.objects_modified = none)
    (hC1 : rowC.direct_objects_accessed = some [])
    (hC2 : rowC.objects_modified = some omC) :
    parse_audit_log_row g c rowA = .error (.noneNotIterable "direct_objects_accessed")
    ∧ fetch_audit_log g c [rowA]
        = ([], [⟨rowA, .noneNotIterable "direct_objects_accessed"⟩])
    ∧ parse_audit_log_row g c rowB = .error (.noneNotIterable "objects_modified")
    ∧ ∃ q w, parse_audit_log_row g c rowC = .ok (q, w)
        ∧ q.upstreams = [] ∧ q.column_usage = [] := by
  have ha : parse_audit_log_row g c rowA
      = .error (.noneNotIterable "direct_objects_accessed") := by
    rw [parse_audit_log_row, hA]
  refine ⟨ha, ?_, ?_, ?_⟩
  · simp [fetch_audit_log, ha, Except.toOption]
  · rw [parse_audit_log_row, hB1]
    simp only [hB2]
  · exact ⟨_, _, parse_ok g c rowC [] omC hC1 hC2, rfl, rfl⟩

/-- A row whose `OBJECTS_MODIFIED` is SQL `NULL`. -/
def c10RowB : AuditLogRow :=
  { query_fingerprint := "fp10b", query_text := "select 4",
    direct_objects_accessed := some [], objects_modified := none,
    user_name := "frank", query_start_time := 0, query_type := "SELECT",
    query_count := 1, session_id := "sess10b" }

/-- A row whose JSON arrays are both present and empty (`'[]'`). -/
def c10RowC : AuditLogRow :=
  { query_fingerprint := "fp10c", query_text := "select 5",
    direct_objects_accessed := some [], objects_modified := some [],
    user_name := "frank", query_start_time := 0, query_type := "SELECT",
    query_count := 1, session_id := "sess10c" }

/-- Witness for C10 at three concrete rows (NULL accessed, NULL modified,
both-present-and-empty). -/
theorem c10_null_json_fields_witness :
    parse_audit_log_row (fun s => s) (fun s => s) c9Bad
        = .error (.noneNotIterable "direct_objects_accessed")
    ∧ fetch_audit_log (fun s => s) (fun s => s) [c9Bad]
        = ([], [⟨c9Bad, .noneNotIterable "direct_objects_accessed"⟩])
    ∧ parse_audit_log_row (fun s => s) (fun s => s) c10RowB
        = .error (.noneNotIterable "objects_modified")
    ∧ ∃ q w, parse_audit_log_row (fun s => s) (fun s => s) c10RowC = .ok (q, w)
        ∧ q.upstreams = [] ∧ q.column_usage = [] :=
  c10_null_json_fields (fun s => s) (fun s => s) c9Bad c10RowB c10RowC [] []
    rfl rfl rfl rfl rfl

/-! ### C2 -/

/-- An access-history row with 21 table-domain modified objects and no
accessed objects. -/
def c2ARow : AccessHistoryRow :=
  { query_id := "q2", query_start_time := 1, user_name := "gail",
    direct_objects_accessed := [],
    objects_modified := List.replicate 21 (exMod "DB.SCH.T") }

/-- C2 (counterexample): the claim says the generated SQL truncates BOTH
arrays to at most 20 entries.  On a row with 21 table-domain
`objects_modified` entries, the `filtered_access_history` output still
carries all 21: `ARRAY_SLICE(..., 0, _MAX_TABLES_PER_QUERY)` is applied only
to `direct_objects_accessed`. -/
theorem c2_counterexample :
    ((filtered_access_history [c2ARow]).map fun r => r.objects_modified.length)
        = [21]
    ∧ ¬ (21 ≤ _MAX_TABLES_PER_QUERY) := by
  exact ⟨rfl, by decide⟩

/-- C2 (amended): in every `filtered_access_history` output row, the
`direct_objects_accessed` array is domain-filtered and truncated to at most
`_MAX_TABLES_PER_QUERY = 20` entries, with overflow dropped silently, while
the `objects_modified` array is domain-filtered but NOT truncated. -/
theorem c2_amended_truncation (rows : List AccessHistoryRow)
    (out : AccessHistoryRow) (hmem : out ∈ filtered_access_history rows) :
    out.direct_objects_accessed.length ≤ _MAX_TABLES_PER_QUERY
    ∧ ∃ r ∈ rows,
        out.direct_objects_accessed
          = arraySlice (r.direct_objects_accessed.filter fun o =>
              isTableViewDomain o.objectDomain) 0 _MAX_TABLES_PER_QUERY
        ∧ out.objects_modified
          = r.objects_modified.filter fun o => isTableViewDomain o.objectDomain := by
  simp only [filtered_access_history, List.mem_map] at hmem
  obtain ⟨r, hr, rfl⟩ := hmem
  refine ⟨?_, r, List.mem_of_mem_filter hr, rfl, rfl⟩
  simp [arraySlice, _MAX_TABLES_PER_QUERY, List.length_take]

/-- Witness for C2 (amended): the 21-modified-object row passes through with
its accessed array (empty, hence within the cap) sliced and its modified
array only filtered. -/
theorem c2_amended_witness :
    c2ARow.direct_objects_accessed.length ≤ _MAX_TABLES_PER_QUERY
    ∧ ∃ r ∈ [c2ARow],
        c2ARow.direct_objects_accessed
          = arraySlice (r.direct_objects_accessed.filter fun o =>
              isTableViewDomain o.objectDomain) 0 _MAX_TABLES_PER_QUERY
        ∧ c2ARow.objects_modified
          = r.objects_modified.filter fun o => isTableViewDomain o.objectDomain :=
  c2_amended_truncation [c2ARow] c2ARow (by decide)

/-! ### C3 -/

/-- C3: given two query-history rows in the window, with the same fingerprint
and the same time bucket, the deduplication stage of the builder's SQL yields
exactly one row for the pair, with `query_count = 2` and a `start_time` equal
to the later of the two start times. -/
theorem c3_dedup_pair (trunc : Int → Int) (start stop : Int)
    (deny : List String) (r1 r2 : QueryHistoryRow)
    (h1 : passesQueryFilter start stop deny r1 = true)
    (h2 : passesQueryFilter start stop deny r2 = true)
    (hfp : r1.query_parameterized_hash = r2.query_parameterized_hash)
    (hb : trunc r1.start_time = trunc r2.start_time) :
    ∃ d, deduplicated_queries trunc
          (fingerprinted_queries start stop deny [r1, r2]) = [d]
      ∧ d.query_count = 2
      ∧ d.row.start_time = max r1.start_time r2.start_time := by
  have hf : fingerprinted_queries start stop deny [r1, r2] = [r1, r2] := by
    simp [fingerprinted_queries, List.filter_cons, h1, h2]
  have henum : List.enum [r1, r2] = [(0, r1), (1, r2)] := rfl
  have hp11 : samePartition trunc r1 r1 = true := by simp [samePartition]
  have hp22 : samePartition trunc r2 r2 = true := by simp [samePartition]
  have hp12 : samePartition trunc r1 r2 = true := by
    simp [samePartition, hb, hfp]
  have hp21 : samePartition trunc r2 r1 = true := by
    simp [samePartition, hb, hfp]
  rw [hf]
  rcases lt_trichotomy r1.start_time r2.start_time with hlt | heq | hgt
  · have hn1 : ¬ (r2.start_time < r1.start_time) := not_lt.mpr (le_of_lt hlt)
    have hn2 : r2.start_time ≠ r1.start_time := ne_of_gt hlt
    have hk0 : keepInDedup trunc [r1, r2] 0 r1 = false := by
      simp [keepInDedup, henum, hp12, hn1, hn2]
    have hk1 : keepInDedup trunc [r1, r2] 1 r2 = true := by
      simp [keepInDedup, henum, hlt]
    have hd : deduplicated_queries trunc [r1, r2]
        = [{ row := r2, bucket_start_time := trunc r2.start_time,
             query_fingerprint := r2.query_parameterized_hash,
             query_count := 2 }] := by
      simp [deduplicated_queries, henum, List.filter_cons, hk0, hk1, hp21, hp22]
    exact ⟨_, hd, rfl, (max_eq_right (le_of_lt hlt)).symm⟩
  · have hk0 : keepInDedup trunc [r1, r2] 0 r1 = true := by
      simp [keepInDedup, henum, heq]
    have hk1 : keepInDedup trunc [r1, r2] 1 r2 = false := by
      simp [keepInDedup, henum, hp21, heq, lt_irrefl]
    have hd : deduplicated_queries trunc [r1, r2]
        = [{ row := r1, bucket_start_time := trunc r1.start_time,
             query_fingerprint := r1.query_parameterized_hash,
             query_count := 2 }] := by
      simp [deduplicated_queries, henum, List.filter_cons, hk0, hk1, hp11, hp12]
    exact ⟨_, hd, rfl, (max_eq_left (le_of_eq heq.symm)).symm⟩
  · have hn1 : ¬ (r1.start_time < r2.start_time) := not_lt.mpr (le_of_lt hgt)
    have hn2 : r1.start_time ≠ r2.start_time := ne_of_gt hgt
    have hk0 : keepInDedup trunc [r1, r2] 0 r1 = true := by
      simp [keepInDedup, henum, hgt]
    have hk1 : keepInDedup trunc [r1, r2] 1 r2 = false := by
      simp [keepInDedup, henum, hp21, hn1, hn2]
    have hd : deduplicated_queries trunc [r1, r2]
        = [{ row := r1, bucket_start_time := trunc r1.start_time,
             query_fingerprint := r1.query_parameterized_hash,
             query_count := 2 }] := by
      simp [deduplicated_queries, henum, List.filter_cons, hk0, hk1, hp11, hp12]
    exact ⟨_, hd, rfl, (max_eq_left (le_of_lt hgt)).symm⟩

/-- A successful query-history row at epoch-millis 1000. -/
def c3R1 : QueryHistoryRow :=
  { query_id := "qid1", query_parameterized_hash := "hash3", start_time := 1000,
    execution_status := "SUCCESS", user_name := "ivy", session_id := "s3a",
    query_text := "select 1", query_type := "SELECT" }

/-- A second run of the same fingerprint at epoch-millis 2000. -/
def c3R2 : QueryHistoryRow :=
  { query_id := "qid2", query_parameterized_hash := "hash3", start_time := 2000,
    execution_status := "SUCCESS", user_name := "ivy", session_id := "s3b",
    query_text := "select  1", query_type := "SELECT" }

/-- Witness for C3: two same-fingerprint rows in the same hour bucket collapse
to one row with `query_count = 2` and the later start time. -/
theorem c3_dedup_pair_witness :
    ∃ d, deduplicated_queries (fun t => t / 3600000 * 3600000)
          (fingerprinted_queries 0 86400000 ["SVC_ETL"] [c3R1, c3R2]) = [d]
      ∧ d.query_count = 2
      ∧ d.row.start_time = max c3R1.start_time c3R2.start_time :=
  c3_dedup_pair (fun t => t / 3600000 * 3600000) 0 86400000 ["SVC_ETL"]
    c3R1 c3R2 (by decide) (by decide) rfl (by decide)

/-! ### C4 -/

/-- A row accessing only a stage object. -/
def c4Row : AccessHistoryRow :=
  { query_id := "q4", query_start_time := 1, user_name := "hank",
    direct_objects_accessed :=
      [{ objectName := "DB.SCH.STG", objectDomain := "Stage", columns := [] }],
    objects_modified := [] }

/-- C4 (counterexample): the claim says a row whose arrays contain only
non-table/view objects (e.g. only stages) is dropped.  A row accessing only a
stage is KEPT by `filtered_access_history` — with both output arrays empty —
because the SQL `WHERE array_size(...) > 0` tests the raw arrays of the
`FROM` source, not the domain-filtered SELECT aliases. -/
theorem c4_counterexample :
    (filtered_access_history [c4Row]).length = 1
    ∧ ((filtered_access_history [c4Row]).map fun r =>
        (r.direct_objects_accessed.length, r.objects_modified.length)) = [(0, 0)] := by
  exact ⟨rfl, rfl⟩

/-- C4 (amended): `filtered_access_history` drops an access-history row
exactly when both its arrays are empty BEFORE the table-or-view domain
filtering; a row whose arrays contain only non-table/view objects is kept
(with both output arrays empty), and a row with at least one object of any
domain in either array is kept. -/
theorem c4_amended_drop_condition (r : AccessHistoryRow) :
    filtered_access_history [r] = []
      ↔ r.direct_objects_accessed = [] ∧ r.objects_modified = [] := by
  by_cases h1 : r.direct_objects_accessed = []
  · by_cases h2 : r.objects_modified = []
    · simp [filtered_access_history, List.filter_cons, h1, h2]
    · have hpos : 0 < r.objects_modified.length := List.length_pos.mpr h2
      simp [filtered_access_history, List.filter_cons, h2, hpos]
  · have hpos : 0 < r.direct_objects_accessed.length := List.length_pos.mpr h1
    simp [filtered_access_history, List.filter_cons, h1, hpos]

/-! ### C5 -/

/-- A query-history row whose user name is stored in lower case. -/
def c5QRow : QueryHistoryRow :=
  { query_id := "q5", query_parameterized_hash := "h5", start_time := 5,
    execution_status := "SUCCESS", user_name := "svc_etl", session_id := "s5",
    query_text := "select 9", query_type := "SELECT" }

/-- An access-history row whose user name is stored in lower case. -/
def c5ARow : AccessHistoryRow :=
  { query_id := "q5", query_start_time := 5, user_name := "svc_etl",
    direct_objects_accessed := [], objects_modified := [] }

/-- C5 (counterexample): the claim says a denylist entry `"SVC_ETL"` excludes
users named `svc_etl` (case-insensitively) from both subqueries.  With default
case-sensitive string comparison, a row whose stored `user_name` is `svc_etl`
PASSES both the query-history and the access-history filter; only the exact
upper-cased name `SVC_ETL` is excluded. -/
theorem c5_counterexample :
    passesQueryFilter 0 10 ["SVC_ETL"] c5QRow = true
    ∧ passesAccessFilter 0 10 ["SVC_ETL"] ["q5"] c5ARow = true
    ∧ usersPass ["SVC_ETL"] "SVC_ETL" = false := by
  decide

/-- C5 (amended): for every non-empty denylist, the generated user filter
excludes exactly the rows whose `user_name` is string-equal to one of the
UPPER-CASED denylist entries (so it is case-insensitive in the denylist
entry's spelling, but exact on the stored user name), and the same filter is
applied in both the query-history and the access-history subqueries. -/
theorem c5_amended_user_filter (start stop : Int) (deny : List String)
    (u : String) (r : QueryHistoryRow) (ids : List String)
    (a : AccessHistoryRow)
    (hne : deny ≠ [])
    (hr : passesQueryFilter start stop deny r = true)
    (ha : passesAccessFilter start stop deny ids a = true) :
    (usersPass deny u = false ↔ u ∈ deny.map pyUpper)
    ∧ usersPass deny r.user_name = true
    ∧ usersPass deny a.user_name = true := by
  refine ⟨?_, ?_, ?_⟩
  · cases deny with
    | nil => exact absurd rfl hne
    | cons d ds =>
        simp [usersPass]
        tauto
  · simp only [passesQueryFilter, Bool.and_eq_true] at hr
    exact hr.2
  · simp only [passesAccessFilter, Bool.and_eq_true] at ha
    exact ha.1.2

/-- An access-history row by a non-denied user, in the window. -/
def c5KeptARow : AccessHistoryRow :=
  { query_id := "q5k", query_start_time := 5, user_name := "ivy",
    direct_objects_accessed := [], objects_modified := [] }

/-- Witness for C5 (amended) at the denylist `["SVC_ETL"]`, a kept
query-history row and a kept access-history row. -/
theorem c5_amended_witness :
    (usersPass ["SVC_ETL"] "SVC_ETL" = false
        ↔ "SVC_ETL" ∈ ["SVC_ETL"].map pyUpper)
    ∧ usersPass ["SVC_ETL"] c3R1.user_name = true
    ∧ usersPass ["SVC_ETL"] c5KeptARow.user_name = true :=
  c5_amended_user_filter 0 86400000 ["SVC_ETL"] "SVC_ETL" c3R1 ["q5k"]
    c5KeptARow (by decide) (by decide) (by decide)

end SnowflakeQueries
